import Mathlib

/-!
Shallow embedding of the `deeper_hub` correlated WebSocket client
(`src/client/src/websocket_client.cpp`, `src/client/src/database_operations.cpp`,
`src/client/include/websocket_client.hpp`).

The client keeps a single shared response slot (`last_response_` /
`response_received_`) guarded by a mutex and condition variable; inbound
frames are handled by `on_message`, connection lifecycle by `connect` /
`disconnect` / `on_open` / `on_close` / `on_fail`, periodic keep-alive by
`heartbeat_loop`, and the database operations build doubly encoded
envelopes in `send_database_operation` / `send_join_operation`.

JSON values are modelled by the inductive `Json`; the few nlohmann-json
operations the client uses (`contains`, `operator[]`, `value`, `empty`,
`dump`, comparison against a string literal) are given as functions on
`Json`.  A C++ exception escaping to the `catch` block of `on_message`
is modelled by `Option`: `none` means the frame was discarded.
-/

namespace DeeperHub

/-- JSON values, as used by the client (nlohmann::json). -/
inductive Json where
  | null
  | bool (b : Bool)
  | num (n : Int)
  | str (s : String)
  | arr (elems : List Json)
  | obj (fields : List (String × Json))

/-- Association lookup among an object's fields. -/
def Json.lookupField : List (String × Json) → String → Option Json
  | [], _ => none
  | (k', v) :: rest, k => if k' = k then some v else Json.lookupField rest k

/-- Key lookup in an object (`nlohmann::json` find); `none` on non-objects
or missing keys. -/
def Json.get? (j : Json) (k : String) : Option Json :=
  match j with
  | .obj fields => Json.lookupField fields k
  | _ => none

/-- Models `j.contains(k)`: true only for objects holding the key. -/
def Json.containsKey (j : Json) (k : String) : Bool :=
  (j.get? k).isSome

/-- Models `j.is_object()`. -/
def Json.isObj : Json → Bool
  | .obj _ => true
  | _ => false

/-- Models `j[k]` read under a `contains` guard; `Json.null` when absent. -/
def Json.getD (j : Json) (k : String) : Json :=
  match j.get? k with
  | some v => v
  | none => Json.null

/-- Models `j.empty()`: true for `null` and for empty objects/arrays, false for
all primitive values (nlohmann semantics). -/
def Json.isEmpty : Json → Bool
  | .null => true
  | .obj fields => fields.isEmpty
  | .arr elems => elems.isEmpty
  | _ => false

/-- Models `j[k] == "s"` (nlohmann comparison between a json value and a string
literal): true exactly when the field is a string equal to `s`. -/
def Json.fieldEqStr (j : Json) (k : String) (s : String) : Bool :=
  match j.get? k with
  | some (.str t) => t = s
  | _ => false

mutual

/-- Models `j.dump()`: compact serialization (the client only ever tests the
result for being a string, so escaping details are immaterial). -/
def Json.dump : Json → String
  | .null => "null"
  | .bool b => if b then "true" else "false"
  | .num n => toString n
  | .str s => "\"" ++ s ++ "\""
  | .arr elems => "[" ++ Json.dumpList elems ++ "]"
  | .obj fields => "\x7b" ++ Json.dumpFields fields ++ "\x7d"

/-- Serialize array elements, comma separated. -/
def Json.dumpList : List Json → String
  | [] => ""
  | [j] => Json.dump j
  | j :: rest => Json.dump j ++ "," ++ Json.dumpList rest

/-- Serialize object fields, comma separated. -/
def Json.dumpFields : List (String × Json) → String
  | [] => ""
  | [(k, v)] => "\"" ++ k ++ "\":" ++ Json.dump v
  | (k, v) :: rest => "\"" ++ k ++ "\":" ++ Json.dump v ++ "," ++ Json.dumpFields rest

end

/-- Models `data.value(k, d)` with a string default: the default when the key is
absent, the stored string when present; `none` models the
`type_error` exception thrown when the stored value is not a string. -/
def Json.valueStr (j : Json) (k : String) (d : String) : Option String :=
  match j.get? k with
  | none => some d
  | some (.str s) => some s
  | some _ => none

/-- Models `data.value(k, d)` with a json default: the stored value when the key
is present, otherwise `d`. -/
def Json.valueJ (j : Json) (k : String) (d : Json) : Json :=
  match j.get? k with
  | some v => v
  | none => d

/-- Non-const `data[k]` used for printing in the old-format branch of
`on_message`: inserts `null` for a missing key as a side effect on the
local copy. -/
def Json.indexInsert (j : Json) (k : String) : Json :=
  match j with
  | .obj fields => if (Json.lookupField fields k).isSome then j
                   else .obj (fields ++ [(k, Json.null)])
  | _ => j

/-- The mutable per-client fields of `WebSocketClient` relevant to the
specified behaviour: `connected_`, `authenticated_`, and the shared
response slot `response_received_` / `last_response_`. -/
structure ClientState where
  connected : Bool
  authenticated : Bool
  responseReceived : Bool
  lastResponse : Json

/-- Observable actions of the client on its environment: condition
variable notification, invocation of the message callback, invocation of
the connection-state callback, a transport text-frame write, and a
transport close. -/
inductive Effect where
  | notifyOne
  | messageCallback (j : Json)
  | connectionCallback (b : Bool)
  | sendFrame (j : Json)
  | sendClose

/-- The shared fulfilment sequence repeated in `on_message`: store the
value in `last_response_`, set `response_received_`, notify the condition
variable and invoke the message callback with the same value. -/
def fulfillResp (st : ClientState) (v : Json) : ClientState × List Effect :=
  ({ st with lastResponse := v, responseReceived := true },
   [Effect.notifyOne, Effect.messageCallback v])

/-- Authentication test of the `ref == "1"` branch of `on_message`:
`data.contains("payload") && data["payload"].contains("status") &&
data["payload"]["status"] == "ok"`. -/
def authOk (data : Json) : Bool :=
  data.containsKey "payload" &&
  (data.getD "payload").containsKey "status" &&
  (data.getD "payload").fieldEqStr "status" "ok"

/-- The `phx_reply` branch of `on_message` for refs other than `"1"`
(websocket_client.cpp lines 286-342), acting on the decoded `payload`
field: returns the value handed to the waiting caller and the message
callback, or `none` when the reply is dropped. -/
def dispatchReply (responseData : Json) : Option Json :=
  if responseData.isObj then
    if responseData.containsKey "response" && (responseData.getD "response").isObj then
      let response := responseData.getD "response"
      if response.containsKey "type" && response.fieldEqStr "type" "database_response" then
        some response
      else if response.containsKey "status" then
        some response
      else
        none
    else if responseData.containsKey "status" then
      some responseData
    else
      none
  else
    none

/-- Body of the `try` block of `on_message` after a successful
`json::parse`; `none` models a C++ exception escaping to the handler's
`catch` (the frame is then discarded).  Mirrors the `if`/`else if`
cascade of websocket_client.cpp lines 271-360. -/
def processMessage (st : ClientState) (data : Json) : Option (ClientState × List Effect) :=
  if data.containsKey "event" then
    match data.get? "event" with
    | some (Json.str eventType) =>
      if eventType = "phx_reply" then
        match data.valueStr "ref" "" with
        | none => none
        | some refVal =>
          if refVal = "1" then
            if authOk data then
              some ({ st with authenticated := true }, [])
            else
              some (st, [])
          else
            let responseData := data.valueJ "payload" (Json.obj [])
            match dispatchReply responseData with
            | some v => some (fulfillResp st v)
            | none => some (st, [])
      else if eventType = "heartbeat" then
        some (st, [])
      else
        some (st, [])
    | _ => none
  else
    if data.isObj && data.containsKey "type" && data.fieldEqStr "type" "database_response" then
      some (fulfillResp st ((data.indexInsert "operation").indexInsert "schema"))
    else
      some (st, [])

/-- Handler `on_message`: the inbound frame either failed `json::parse`
(`none`) or decoded to `data`; any exception inside processing is caught,
logged and the frame discarded with the state untouched. -/
def onMessage (st : ClientState) (frame : Option Json) : ClientState × List Effect :=
  match frame with
  | none => (st, [])
  | some data =>
    match processMessage st data with
    | none => (st, [])
    | some r => r

/-- Handler `on_close`: clears `connected_` and `authenticated_` and invokes the
connection-state callback with `false`.  The response slot and any
threads blocked in `wait_for_response` are not touched. -/
def onClose (st : ClientState) : ClientState × List Effect :=
  ({ st with connected := false, authenticated := false },
   [Effect.connectionCallback false])

/-- Handler `on_fail`: identical behaviour to `on_close`. -/
def onFail (st : ClientState) : ClientState × List Effect :=
  ({ st with connected := false, authenticated := false },
   [Effect.connectionCallback false])

/-- Method `disconnect()`: early return when not connected; otherwise sends a
close frame and clears both flags. -/
def disconnectRun (st : ClientState) : ClientState × List Effect :=
  if st.connected then
    ({ st with connected := false, authenticated := false }, [Effect.sendClose])
  else
    (st, [])

/-- Method `send_message(message)`: fails immediately (returning `false`) with
no transport write when not connected or not authenticated, otherwise
writes the serialized message as a text frame.  Transport-level write
errors only change the returned flag and are outside every claim. -/
def sendMessageRun (st : ClientState) (message : Json) : Bool × List Effect :=
  if st.connected && st.authenticated then
    (true, [Effect.sendFrame message])
  else
    (false, [])

/-- The join envelope built by `join_channel()`: Phoenix `phx_join` on
topic `websocket`, carrying the auth token, with the reserved ref `"1"`. -/
def joinMessage (authToken : String) : Json :=
  Json.obj [("topic", Json.str "websocket"),
            ("event", Json.str "phx_join"),
            ("payload", Json.obj [("auth_token", Json.str authToken)]),
            ("ref", Json.str "1")]

/-- The environment a single `connect()` call runs against: whether the
transport opens within the 10 s connect window, and the first
`phx_reply`-shaped frame (if any) delivered during the 10 s
authentication window. -/
structure ConnectEnv where
  transportOpens : Bool
  joinReply : Option Json

/-- Method `connect()` (websocket_client.cpp lines 76-142): early-returns `true`
when already connected; fails when the transport does not open in time;
on open (`on_open`) fires the connection callback with `true` and sends
the join envelope; then waits up to 10 s for `authenticated_`, which only
the `ref == "1"` branch of `on_message` can set.  When authentication
does not happen it calls `disconnect()` and returns `false` — the same
generic `false` whether the server replied with a failure status or never
replied. -/
def connectRun (authToken : String) (st : ClientState) (env : ConnectEnv) :
    Bool × ClientState × List Effect :=
  if st.connected then
    (true, st, [])
  else if env.transportOpens then
    let st1 : ClientState := { st with connected := true }
    let effsOpen := [Effect.connectionCallback true, Effect.sendFrame (joinMessage authToken)]
    let stepReply : ClientState × List Effect :=
      match env.joinReply with
      | some r => onMessage st1 (some r)
      | none => (st1, [])
    let st2 := stepReply.1
    if st2.authenticated then
      (true, st2, effsOpen ++ stepReply.2)
    else
      let closed := disconnectRun st2
      (false, closed.1, effsOpen ++ stepReply.2 ++ closed.2)
  else
    (false, st, [])

/-- Default heartbeat interval of `start_heartbeat` (30 000 ms). -/
def defaultHeartbeatIntervalMs : Nat := 30000

/-- Default `wait_for_response` timeout (5 000 ms). -/
def defaultResponseTimeoutMs : Nat := 5000

/-- The heartbeat envelope built on each tick of `heartbeat_loop`:
event `heartbeat`, empty object payload, generated ref. -/
def heartbeatMessage (ref : String) : Json :=
  Json.obj [("topic", Json.str "websocket"),
            ("event", Json.str "heartbeat"),
            ("payload", Json.obj []),
            ("ref", Json.str ref)]

/-- One wake-up of `heartbeat_loop` after the interval sleep: when the
loop is still running and the client connected it calls
`send_message(heartbeat_message)`; the loop consults no record of other
traffic, so `trafficSinceLastTick` is an environment observation the code
never reads. -/
def heartbeatTick (st : ClientState) (hbRunning : Bool)
    (trafficSinceLastTick : Bool) (ref : String) : List Effect :=
  if hbRunning && st.connected then
    (sendMessageRun st (heartbeatMessage ref)).2
  else
    []

/-- The inner `database_operation` document of
`DatabaseOperations::send_database_operation`: `data` and `conditions`
are added only when non-empty and then as dumped strings. -/
def buildDatabaseOperation (operation schema : String) (data : Json)
    (id : String) (conditions : Json) (requestId : String) (timestamp : Int) : Json :=
  let base := [("operation", Json.str operation),
               ("schema", Json.str schema),
               ("request_id", Json.str requestId),
               ("timestamp", Json.num timestamp)]
  let withData := if data.isEmpty then base else base ++ [("data", Json.str data.dump)]
  let withId := if id = "" then withData else withData ++ [("id", Json.str id)]
  let withConds := if conditions.isEmpty then withId
                   else withId ++ [("conditions", Json.str conditions.dump)]
  Json.obj withConds

/-- The payload object wrapping a database operation. -/
def databasePayload (dbop : Json) : Json :=
  Json.obj [("database_operation", dbop)]

/-- The full Phoenix envelope of `send_database_operation`: the payload
object is dumped to a string before being placed in the envelope. -/
def buildDatabaseMessage (operation schema : String) (data : Json)
    (id : String) (conditions : Json) (requestId : String) (timestamp : Int)
    (ref : String) : Json :=
  Json.obj [("topic", Json.str "websocket"),
            ("event", Json.str "message"),
            ("payload", Json.str (databasePayload
              (buildDatabaseOperation operation schema data id conditions
                requestId timestamp)).dump),
            ("ref", Json.str ref)]

/-- The inner `database_operation` document of
`DatabaseOperations::send_join_operation`: `on` is always dumped to a
string, `conditions` only when non-empty. -/
def buildJoinOperation (joinType : String) (schemas : List String)
    (onCond : Json) (conditions : Json) (requestId : String) (timestamp : Int) : Json :=
  let base := [("operation", Json.str "join"),
               ("join_type", Json.str joinType),
               ("schemas", Json.arr (schemas.map Json.str)),
               ("on", Json.str onCond.dump),
               ("request_id", Json.str requestId),
               ("timestamp", Json.num timestamp)]
  let withConds := if conditions.isEmpty then base
                   else base ++ [("conditions", Json.str conditions.dump)]
  Json.obj withConds

/-- The full Phoenix envelope of `send_join_operation`. -/
def buildJoinMessage (joinType : String) (schemas : List String)
    (onCond : Json) (conditions : Json) (requestId : String) (timestamp : Int)
    (ref : String) : Json :=
  Json.obj [("topic", Json.str "websocket"),
            ("event", Json.str "message"),
            ("payload", Json.str (databasePayload
              (buildJoinOperation joinType schemas onCond conditions
                requestId timestamp)).dump),
            ("ref", Json.str ref)]

/-!
Interleaving semantics of the blocking interface.

`wait_for_response` (websocket_client.cpp lines 205-220) takes the
response mutex, resets `response_received_` and `last_response_`, then
waits on the condition variable for `response_received_`; on wake it
returns `last_response_`, on timeout it returns the null `json()`.
Each `Action` below is one of the atomic (mutex-protected) regions of
the C++: entering the wait, a predicate-true wake-up, a timeout with the
predicate still false, the io thread running a handler, or a foreground
thread sending a request.
-/

/-- Status of a foreground caller thread. -/
inductive ThreadStatus where
  | idle
  | waiting
  | done (result : Json)

/-- Whole-system state: the shared client fields plus every foreground
thread's status. -/
structure SysState where
  client : ClientState
  threads : Nat → ThreadStatus

/-- Update one thread's status. -/
def setThread (tid : Nat) (ts : ThreadStatus) (f : Nat → ThreadStatus) :
    Nat → ThreadStatus :=
  fun t => if t = tid then ts else f t

/-- Atomic scheduling steps of the client system. -/
inductive Action where
  | send (message : Json)
  | beginWait (tid : Nat)
  | wake (tid : Nat)
  | timeoutWait (tid : Nat)
  | deliver (frame : Option Json)
  | closeEvt

/-- One atomic step; `none` when the action is not enabled in `s`
(e.g. a wake with the predicate still false, which the
`condition_variable::wait_for` predicate rules out). -/
def stepE (s : SysState) : Action → Option (SysState × List Effect)
  | .send message =>
    some (s, (sendMessageRun s.client message).2)
  | .beginWait tid =>
    match s.threads tid with
    | .idle =>
      some ({ client := { s.client with responseReceived := false, lastResponse := Json.null },
              threads := setThread tid .waiting s.threads }, [])
    | _ => none
  | .wake tid =>
    match s.threads tid with
    | .waiting =>
      if s.client.responseReceived then
        some ({ s with threads := setThread tid (.done s.client.lastResponse) s.threads }, [])
      else none
    | _ => none
  | .timeoutWait tid =>
    match s.threads tid with
    | .waiting =>
      if s.client.responseReceived then none
      else some ({ s with threads := setThread tid (.done Json.null) s.threads }, [])
    | _ => none
  | .deliver frame =>
    let r := onMessage s.client frame
    some ({ s with client := r.1 }, r.2)
  | .closeEvt =>
    let r := onClose s.client
    some ({ s with client := r.1 }, r.2)

/-- Run a sequence of steps, accumulating effects; `none` when some step
is not enabled. -/
def runE (s : SysState) : List Action → Option (SysState × List Effect)
  | [] => some (s, [])
  | a :: rest =>
    match stepE s a with
    | none => none
    | some (s', effs) =>
      match runE s' rest with
      | none => none
      | some (s'', effs') => some (s'', effs ++ effs')

/-- A server `phx_reply` envelope carrying `ref` and `payload`, the shape
exercised by the correlation claims. -/
def replyEnvelope (ref : String) (payload : Json) : Json :=
  Json.obj [("event", Json.str "phx_reply"),
            ("ref", Json.str ref),
            ("payload", payload)]

/-- The join-reply acceptance predicate: exactly the inbound frames whose
processing sets `authenticated_` — a `phx_reply` envelope whose `ref`
field reads as the string `"1"` and whose `payload` object carries
`status == "ok"`. -/
def joinReplyOk (data : Json) : Bool :=
  data.fieldEqStr "event" "phx_reply" &&
  (match data.valueStr "ref" "" with
   | some s => s = "1"
   | none => false) &&
  authOk data

/-- Whether the environment delivered a join reply that authenticates. -/
def joinReplyAccepted : Option Json → Bool
  | some r => joinReplyOk r
  | none => false

/-- The failure kinds the spec (§4.3, §7) says `connect()` reports for a
failed join: `AuthenticationError` on a failure-status reply,
`JoinTimeoutError` when no reply arrives within the join timeout. -/
inductive SpecConnectFailure where
  | authenticationError
  | joinTimeoutError
  deriving DecidableEq

/-- Follows the spec's words (refinement comparison): the failure
`connect()` is claimed to report, as a function of the join environment
(`none` when the join succeeds or the transport never opens). -/
def specConnectFailure (env : ConnectEnv) : Option SpecConnectFailure :=
  if env.transportOpens then
    match env.joinReply with
    | some r => if joinReplyOk r then none else some SpecConnectFailure.authenticationError
    | none => some SpecConnectFailure.joinTimeoutError
  else
    none

/-- The fulfilment condition exactly as claim C10 words it: the decoded
payload is a JSON object that either contains a `status` key directly, or
whose `response` sub-object contains a `status` key or has `type` equal
to `database_response`. -/
def claimedFulfillShape (p : Json) : Bool :=
  p.isObj &&
  (p.containsKey "status" ||
   (p.getD "response").containsKey "status" ||
   (p.getD "response").fieldEqStr "type" "database_response")

/-- The fulfilment condition the code actually implements, written as a
flat predicate: an object-valued `response` key takes precedence and then
only the sub-object's markers count; only otherwise does a top-level
`status` key fulfil. -/
def amendedFulfillShape (p : Json) : Bool :=
  p.isObj &&
  (if p.containsKey "response" && (p.getD "response").isObj then
     ((p.getD "response").containsKey "type" &&
        (p.getD "response").fieldEqStr "type" "database_response") ||
     (p.getD "response").containsKey "status"
   else
     p.containsKey "status")

/-- The value handed to the waiter and the message callback when a reply
fulfils: the `response` sub-object when an object-valued `response` key
is present, the payload itself otherwise. -/
def deliveredReply (p : Json) : Json :=
  if p.containsKey "response" && (p.getD "response").isObj then p.getD "response" else p

/-!  Concrete fixtures used by the counterexamples and witnesses. -/

/-- A freshly constructed, never-connected client. -/
def clientStart : ClientState :=
  { connected := false, authenticated := false,
    responseReceived := false, lastResponse := Json.null }

/-- A connected, authenticated client with an idle response slot. -/
def clientReady : ClientState :=
  { connected := true, authenticated := true,
    responseReceived := false, lastResponse := Json.null }

/-- All foreground threads idle. -/
def allIdle : Nat → ThreadStatus := fun _ => ThreadStatus.idle

/-- A ready system with no caller active. -/
def sysReady : SysState := { client := clientReady, threads := allIdle }

/-- Request envelope of caller A (ref `"refA"`). -/
def requestA : Json :=
  Json.obj [("topic", Json.str "websocket"), ("event", Json.str "message"),
            ("payload", Json.str "pa"), ("ref", Json.str "refA")]

/-- Request envelope of caller B (ref `"refB"`). -/
def requestB : Json :=
  Json.obj [("topic", Json.str "websocket"), ("event", Json.str "message"),
            ("payload", Json.str "pb"), ("ref", Json.str "refB")]

/-- The reply payload answering request A. -/
def payloadA : Json := Json.obj [("status", Json.str "A")]

/-- The reply payload answering request B. -/
def payloadB : Json := Json.obj [("status", Json.str "B")]

/-- The reply envelope answering request A. -/
def replyA : Json := replyEnvelope "refA" payloadA

/-- The reply envelope answering request B. -/
def replyB : Json := replyEnvelope "refB" payloadB

/-- Out-of-order scenario: request A is submitted and awaited by thread 0,
then request B by thread 1; the replies arrive in the order B then A, and
each waiting caller wakes on the reply that has just arrived. -/
def traceOutOfOrder : List Action :=
  [Action.send requestA, Action.beginWait 0,
   Action.send requestB, Action.beginWait 1,
   Action.deliver (some replyB), Action.wake 0,
   Action.deliver (some replyA), Action.wake 1]

/-- One caller pending when the transport reports closure. -/
def traceCloseWhilePending : List Action :=
  [Action.beginWait 0, Action.closeEvt]

/-- Late-reply scenario: thread 0's await for request A times out before
any reply; thread 1 then submits and awaits request B; A's late reply
arrives and thread 1 wakes on it. -/
def traceLateReply : List Action :=
  [Action.send requestA, Action.beginWait 0, Action.timeoutWait 0,
   Action.send requestB, Action.beginWait 1,
   Action.deliver (some replyA), Action.wake 1]

/-- A reply payload with a top-level `status` key and an object-valued
`response` sub-object carrying neither marker. -/
def statusAndBareResponse : Json :=
  Json.obj [("status", Json.str "ok"), ("response", Json.obj [])]

/-- Join environment: the transport opens and the server answers the join
with a failure status. -/
def envAuthFail : ConnectEnv :=
  { transportOpens := true,
    joinReply := some (replyEnvelope "1" (Json.obj [("status", Json.str "error")])) }

/-- Join environment: the transport opens and no join reply arrives
within the join timeout. -/
def envNoReply : ConnectEnv :=
  { transportOpens := true, joinReply := none }

/-- Join environment: the transport opens and the server answers the join
with status ok. -/
def envOkReply : ConnectEnv :=
  { transportOpens := true,
    joinReply := some (replyEnvelope "1" (Json.obj [("status", Json.str "ok")])) }

/-- A ready system in which thread 0 is blocked in `wait_for_response`
and a reply (payload B) has just been stored in the shared slot. -/
def sysOneWaiting : SysState :=
  { client := { clientReady with responseReceived := true, lastResponse := payloadB },
    threads := setThread 0 ThreadStatus.waiting allIdle }

/-- A ready system in which thread 0 is blocked in `wait_for_response`
with no response stored yet. -/
def sysAwaiting : SysState :=
  { client := clientReady, threads := setThread 0 ThreadStatus.waiting allIdle }

/-!  Shared lemmas about the dispatch path. -/

/-- The nested `if`/`else` cascade of `dispatchReply` computes the flat
precedence predicate `amendedFulfillShape`, delivering `deliveredReply`. -/
theorem dispatchReply_characterization (p : Json) :
    dispatchReply p = if amendedFulfillShape p then some (deliveredReply p) else none := by
  unfold dispatchReply amendedFulfillShape deliveredReply
  by_cases h1 : p.isObj
  · by_cases hr : p.containsKey "response"
    · by_cases ho : (p.getD "response").isObj
      · by_cases h3 : (p.getD "response").containsKey "type"
        · by_cases h4 : (p.getD "response").fieldEqStr "type" "database_response"
          · simp [h1, hr, ho, h3, h4]
          · by_cases h5 : (p.getD "response").containsKey "status" <;>
              simp [h1, hr, ho, h3, h4, h5]
        · by_cases h5 : (p.getD "response").containsKey "status" <;>
            simp [h1, hr, ho, h3, h5]
      · by_cases h6 : p.containsKey "status" <;> simp [h1, hr, ho, h6]
    · by_cases h6 : p.containsKey "status" <;> simp [h1, hr, h6]
  · simp [h1]

/-- Processing a `phx_reply` envelope whose ref is not `"1"` through `on_message`
fulfils the shared slot according to `dispatchReply` on the payload; the
envelope's `ref` value plays no further part. -/
theorem onMessage_reply (st : ClientState) (p : Json) (r : String) (h : r ≠ "1") :
    onMessage st (some (replyEnvelope r p)) =
      match dispatchReply p with
      | some v => fulfillResp st v
      | none => (st, []) := by
  unfold onMessage processMessage replyEnvelope
  rcases hd : dispatchReply p with _ | v <;>
    simp [Json.containsKey, Json.get?, Json.lookupField, Json.valueStr, Json.valueJ, h, hd]

/-- Handler `on_message` never changes `connected_` and sets `authenticated_`
exactly on a frame accepted by `joinReplyOk`. -/
theorem onMessage_state (st : ClientState) (data : Json) :
    (onMessage st (some data)).1.connected = st.connected ∧
    (onMessage st (some data)).1.authenticated = (st.authenticated || joinReplyOk data) := by
  unfold onMessage processMessage joinReplyOk
  rcases hev : data.get? "event" with _ | v
  · have hfe : data.fieldEqStr "event" "phx_reply" = false := by
      unfold Json.fieldEqStr
      rw [hev]
    simp [Json.containsKey, hev, hfe]
    by_cases hdb : (data.isObj = true ∧ (data.get? "type").isSome = true) ∧
        data.fieldEqStr "type" "database_response" = true <;>
      simp [hdb, fulfillResp]
  · rcases v with _ | b | n | s | l | fs <;>
      simp [Json.containsKey, hev, Json.fieldEqStr]
    by_cases hpr : s = "phx_reply"
    · subst hpr
      simp
      rcases hrv : data.valueStr "ref" "" with _ | rv <;> simp [hrv]
      by_cases h1 : rv = "1"
      · subst h1
        by_cases hok : authOk data <;> simp [hok]
      · simp [h1]
        rcases hd : dispatchReply (data.valueJ "payload" (Json.obj [])) with _ | w <;>
          simp [hd, fulfillResp]
    · simp [hpr, ite_self]

/-!  ## Claim theorems -/

/-- C1, counterexample: in the out-of-order scenario (request A
submitted and awaited by thread 0, request B by thread 1, replies
arriving B then A), thread 0 — the caller of A — completes with B's
payload and thread 1 with A's payload, and the two payloads differ, so
it is false that each caller receives its own correct result. -/
theorem c1_out_of_order_cex :
    (runE sysReady traceOutOfOrder).map (fun r => (r.1.threads 0, r.1.threads 1)) =
      some (ThreadStatus.done payloadB, ThreadStatus.done payloadA) ∧
    payloadA ≠ payloadB :=
  ⟨rfl, fun h => Bool.noConfusion (congrArg (fun j => Json.fieldEqStr j "status" "A") h)⟩

/-- C1, amended: replies are not correlated by `ref` at all — processing
of a `phx_reply` envelope (ref ≠ "1") is unchanged under replacing its
ref, and a caller woken from `wait_for_response` receives whatever value
currently sits in the single shared response slot, regardless of which
request that value answers. -/
theorem c1_shared_slot_delivery (st : ClientState) (p : Json) (r1 r2 : String)
    (h1 : r1 ≠ "1") (h2 : r2 ≠ "1")
    (s : SysState) (tid : Nat)
    (hw : s.threads tid = ThreadStatus.waiting)
    (hr : s.client.responseReceived = true) :
    onMessage st (some (replyEnvelope r1 p)) = onMessage st (some (replyEnvelope r2 p)) ∧
    stepE s (Action.wake tid) =
      some ({ s with
                threads := setThread tid (ThreadStatus.done s.client.lastResponse) s.threads },
            []) := by
  constructor
  · rw [onMessage_reply st p r1 h1, onMessage_reply st p r2 h2]
  · simp [stepE, hw, hr]

/-- Witness for `c1_shared_slot_delivery` at concrete inputs. -/
theorem c1_shared_slot_delivery_witness :
    ("refA" : String) ≠ "1" ∧ ("refB" : String) ≠ "1" ∧
    sysOneWaiting.threads 0 = ThreadStatus.waiting ∧
    sysOneWaiting.client.responseReceived = true ∧
    (onMessage clientReady (some (replyEnvelope "refA" payloadA)) =
        onMessage clientReady (some (replyEnvelope "refB" payloadA)) ∧
      stepE sysOneWaiting (Action.wake 0) =
        some ({ sysOneWaiting with
                  threads := setThread 0
                    (ThreadStatus.done sysOneWaiting.client.lastResponse)
                    sysOneWaiting.threads },
              [])) :=
  ⟨by decide, by decide, rfl, rfl,
   c1_shared_slot_delivery clientReady payloadA "refA" "refB" (by decide) (by decide)
     sysOneWaiting 0 rfl rfl⟩

/-- C2, counterexample: with thread 0 pending, a transport closure fires
the connection callback with `false` once, but the pending await does not
resolve within one scheduling step (it stays `waiting` and no wake is
enabled); its only resolution is its own later timeout, which returns the
null result, not a `ConnectionLost` value. -/
theorem c2_close_leaves_waiters_cex :
    (runE sysReady traceCloseWhilePending).map (fun r => (r.1.threads 0, r.2)) =
      some (ThreadStatus.waiting, [Effect.connectionCallback false]) ∧
    ((runE sysReady traceCloseWhilePending).bind fun r => stepE r.1 (Action.wake 0)) = none ∧
    (runE sysReady (traceCloseWhilePending ++ [Action.timeoutWait 0])).map
        (fun r => r.1.threads 0) = some (ThreadStatus.done Json.null) :=
  ⟨rfl, rfl, rfl⟩

/-- C2, amended: on transport closure the connection-state callback is
invoked with `false` exactly once per closure event and both state flags
are cleared, but pending `wait_for_response` calls are not resolved: a
waiting thread is still waiting after the closure step. -/
theorem c2_close_callback_once (st : ClientState) (s : SysState) (tid : Nat)
    (h : s.threads tid = ThreadStatus.waiting) :
    onClose st = ({ st with connected := false, authenticated := false },
                  [Effect.connectionCallback false]) ∧
    (stepE s Action.closeEvt).map (fun r => (r.1.threads tid, r.2)) =
      some (ThreadStatus.waiting, [Effect.connectionCallback false]) :=
  ⟨rfl, by simp [stepE, onClose, h]⟩

/-- Witness for `c2_close_callback_once` at concrete inputs. -/
theorem c2_close_callback_once_witness :
    sysOneWaiting.threads 0 = ThreadStatus.waiting ∧
    (onClose clientReady = ({ clientReady with connected := false, authenticated := false },
                            [Effect.connectionCallback false]) ∧
      (stepE sysOneWaiting Action.closeEvt).map (fun r => (r.1.threads 0, r.2)) =
        some (ThreadStatus.waiting, [Effect.connectionCallback false])) :=
  ⟨rfl, c2_close_callback_once clientReady sysOneWaiting 0 rfl⟩

/-- C3, counterexample: thread 0's await for request A times out and
returns the null result; A's late reply then arrives and is not silently
discarded — it invokes the message callback and is delivered to thread 1,
a caller awaiting the different request B. -/
theorem c3_late_reply_cex :
    (runE sysReady traceLateReply).map (fun r => (r.1.threads 0, r.1.threads 1, r.2)) =
      some (ThreadStatus.done Json.null, ThreadStatus.done payloadA,
            [Effect.sendFrame requestA, Effect.sendFrame requestB,
             Effect.notifyOne, Effect.messageCallback payloadA]) := rfl

/-- C3, amended: a timed-out await returns the null result (there is no
per-ref registry and no entry to remove), and a late reply is processed
exactly like any other reply: it fills the shared slot, notifies the
condition variable and invokes the message callback, so it can be
delivered to whichever caller is currently waiting. -/
theorem c3_timeout_and_late_reply (s : SysState) (tid : Nat)
    (hw : s.threads tid = ThreadStatus.waiting)
    (hr : s.client.responseReceived = false)
    (st : ClientState) (p v : Json) (r : String)
    (href : r ≠ "1") (hd : dispatchReply p = some v) :
    stepE s (Action.timeoutWait tid) =
      some ({ s with threads := setThread tid (ThreadStatus.done Json.null) s.threads }, []) ∧
    onMessage st (some (replyEnvelope r p)) = fulfillResp st v := by
  constructor
  · simp [stepE, hw, hr]
  · rw [onMessage_reply st p r href, hd]

/-- Witness for `c3_timeout_and_late_reply` at concrete inputs. -/
theorem c3_timeout_and_late_reply_witness :
    sysAwaiting.threads 0 = ThreadStatus.waiting ∧
    sysAwaiting.client.responseReceived = false ∧
    ("refA" : String) ≠ "1" ∧
    dispatchReply payloadA = some payloadA ∧
    (stepE sysAwaiting (Action.timeoutWait 0) =
        some ({ sysAwaiting with
                  threads := setThread 0 (ThreadStatus.done Json.null) sysAwaiting.threads },
              []) ∧
      onMessage clientReady (some (replyEnvelope "refA" payloadA)) =
        fulfillResp clientReady payloadA) :=
  ⟨rfl, rfl, by decide, rfl,
   c3_timeout_and_late_reply sysAwaiting 0 rfl rfl clientReady payloadA payloadA "refA"
     (by decide) rfl⟩

/-- C4, counterexample: `connect()` behaves identically — same returned
flag, same final state, same transport and callback effects — on a
failure-status join reply and on no reply at all, while the failures the
spec assigns to those two environments differ; the code therefore cannot
return "the corresponding failure" (`AuthenticationError` vs
`JoinTimeoutError`), it returns one generic `false`. -/
theorem c4_failures_indistinguishable_cex :
    connectRun "token" clientStart envAuthFail = connectRun "token" clientStart envNoReply ∧
    specConnectFailure envAuthFail = some SpecConnectFailure.authenticationError ∧
    specConnectFailure envNoReply = some SpecConnectFailure.joinTimeoutError ∧
    SpecConnectFailure.authenticationError ≠ SpecConnectFailure.joinTimeoutError :=
  ⟨rfl, rfl, rfl, by decide⟩

/-- C4, amended: starting from a disconnected, unauthenticated client,
`connect()` succeeds iff the transport opens and a join reply accepted by
the `ref == "1"` branch (status ok) arrives within the join timeout; on
success the client is connected and authenticated; on any failure the
result is the single generic `false` and the client ends disconnected and
unauthenticated. -/
theorem c4_connect_characterization (tok : String) (st : ClientState) (env : ConnectEnv)
    (hc : st.connected = false) (ha : st.authenticated = false) :
    ((connectRun tok st env).1 = true ↔
      env.transportOpens = true ∧ joinReplyAccepted env.joinReply = true) ∧
    ((connectRun tok st env).1 = true →
      (connectRun tok st env).2.1.connected = true ∧
      (connectRun tok st env).2.1.authenticated = true) ∧
    ((connectRun tok st env).1 = false →
      (connectRun tok st env).2.1.connected = false ∧
      (connectRun tok st env).2.1.authenticated = false) := by
  unfold connectRun
  by_cases ht : env.transportOpens
  · rcases hj : env.joinReply with _ | r
    · simp [hc, ha, ht, hj, joinReplyAccepted, disconnectRun]
    · have hauth : (onMessage { st with connected := true, authenticated := false }
            (some r)).1.authenticated = joinReplyOk r := by
        simpa using (onMessage_state { st with connected := true, authenticated := false } r).2
      have hconn : (onMessage { st with connected := true, authenticated := false }
            (some r)).1.connected = true := by
        simpa using (onMessage_state { st with connected := true, authenticated := false } r).1
      by_cases hjo : joinReplyOk r <;>
        simp [hc, ha, ht, hj, joinReplyAccepted, hjo, hauth, hconn, disconnectRun]
  · simp [hc, ha, ht]

/-- Witness for `c4_connect_characterization` at concrete inputs. -/
theorem c4_connect_characterization_witness :
    clientStart.connected = false ∧ clientStart.authenticated = false ∧
    (((connectRun "token" clientStart envOkReply).1 = true ↔
        envOkReply.transportOpens = true ∧ joinReplyAccepted envOkReply.joinReply = true) ∧
      ((connectRun "token" clientStart envOkReply).1 = true →
        (connectRun "token" clientStart envOkReply).2.1.connected = true ∧
        (connectRun "token" clientStart envOkReply).2.1.authenticated = true) ∧
      ((connectRun "token" clientStart envOkReply).1 = false →
        (connectRun "token" clientStart envOkReply).2.1.connected = false ∧
        (connectRun "token" clientStart envOkReply).2.1.authenticated = false)) :=
  ⟨rfl, rfl, c4_connect_characterization "token" clientStart envOkReply rfl rfl⟩

/-- C5: `send_message` called while the client is not connected or not
authenticated fails immediately (returns `false`) and writes nothing to
the transport. -/
theorem c5_not_ready_no_send (st : ClientState) (m : Json)
    (h : (st.connected && st.authenticated) = false) :
    sendMessageRun st m = (false, []) := by
  simp only [sendMessageRun, h, Bool.false_eq_true, if_false]

/-- Witness for `c5_not_ready_no_send` at concrete inputs. -/
theorem c5_not_ready_no_send_witness :
    (clientStart.connected && clientStart.authenticated) = false ∧
    sendMessageRun clientStart requestA = (false, []) :=
  ⟨rfl, c5_not_ready_no_send clientStart requestA rfl⟩

/-- C6, counterexample: a heartbeat tick sends the heartbeat envelope
even when other traffic occurred since the last tick — the loop consults
no traffic record, so "only when no other traffic occurred" is false. -/
theorem c6_heartbeat_ignores_traffic_cex :
    heartbeatTick clientReady true true "hb" = [Effect.sendFrame (heartbeatMessage "hb")] := rfl

/-- C6, amended: on each tick (every `interval_ms`, default 30 000 ms)
with the loop running and the client connected and authenticated, exactly
one heartbeat envelope is sent — event `heartbeat`, empty object payload,
the generated ref — regardless of any other traffic; otherwise nothing is
sent. -/
theorem c6_heartbeat_tick_shape (st : ClientState) (hbRunning traffic : Bool) (r : String) :
    heartbeatTick st hbRunning traffic r =
      (if hbRunning && st.connected && st.authenticated then
         [Effect.sendFrame (heartbeatMessage r)]
       else []) ∧
    (heartbeatMessage r).fieldEqStr "event" "heartbeat" = true ∧
    (heartbeatMessage r).getD "payload" = Json.obj [] ∧
    (heartbeatMessage r).getD "ref" = Json.str r ∧
    defaultHeartbeatIntervalMs = 30000 := by
  refine ⟨?_, rfl, rfl, rfl, rfl⟩
  by_cases h1 : hbRunning <;> by_cases h2 : st.connected <;> by_cases h3 : st.authenticated <;>
    simp [heartbeatTick, sendMessageRun, h1, h2, h3]

/-- C7: an inbound frame that fails to decode is logged and discarded:
the client state (including the shared response slot every pending
request depends on) is unchanged, no effect is produced, the connection
is not closed, and the dispatch step stays enabled (the delivery loop
keeps running). -/
theorem c7_malformed_frame_discarded (st : ClientState) (s : SysState) :
    onMessage st none = (st, []) ∧
    stepE s (Action.deliver none) = some (s, []) :=
  ⟨rfl, rfl⟩

/-- C8: database-style and join operations double-encode: the envelope's
`payload` field is a dumped JSON string (not a nested structure), and the
inner `data`, `conditions` and `on` sub-documents, when present, are
likewise dumped JSON strings. -/
theorem c8_double_encoding (operation schema : String) (data : Json) (id : String)
    (conditions : Json) (reqId : String) (ts : Int) (ref : String)
    (joinType : String) (schemas : List String) (onCond : Json)
    (hdne : data.isEmpty = false) (hcne : conditions.isEmpty = false) :
    (buildDatabaseMessage operation schema data id conditions reqId ts ref).get? "payload" =
      some (Json.str (databasePayload
        (buildDatabaseOperation operation schema data id conditions reqId ts)).dump) ∧
    (buildDatabaseOperation operation schema data id conditions reqId ts).get? "data" =
      some (Json.str data.dump) ∧
    (buildDatabaseOperation operation schema data id conditions reqId ts).get? "conditions" =
      some (Json.str conditions.dump) ∧
    (buildJoinMessage joinType schemas onCond conditions reqId ts ref).get? "payload" =
      some (Json.str (databasePayload
        (buildJoinOperation joinType schemas onCond conditions reqId ts)).dump) ∧
    (buildJoinOperation joinType schemas onCond conditions reqId ts).get? "on" =
      some (Json.str onCond.dump) ∧
    (buildJoinOperation joinType schemas onCond conditions reqId ts).get? "conditions" =
      some (Json.str conditions.dump) := by
  refine ⟨rfl, ?_, ?_, rfl, ?_, ?_⟩ <;>
    by_cases hid : id = "" <;>
      simp [buildDatabaseOperation, buildJoinOperation, Json.get?, Json.lookupField,
        hdne, hcne, hid]

/-- Witness for `c8_double_encoding` at concrete inputs. -/
theorem c8_double_encoding_witness :
    (Json.obj [("username", Json.str "u")]).isEmpty = false ∧
    (Json.obj [("id", Json.str "7")]).isEmpty = false ∧
    ((buildDatabaseMessage "create" "user" (Json.obj [("username", Json.str "u")]) "id1"
        (Json.obj [("id", Json.str "7")]) "rq1" 5 "rf1").get? "payload" =
      some (Json.str (databasePayload
        (buildDatabaseOperation "create" "user" (Json.obj [("username", Json.str "u")]) "id1"
          (Json.obj [("id", Json.str "7")]) "rq1" 5)).dump) ∧
    (buildDatabaseOperation "create" "user" (Json.obj [("username", Json.str "u")]) "id1"
        (Json.obj [("id", Json.str "7")]) "rq1" 5).get? "data" =
      some (Json.str (Json.obj [("username", Json.str "u")]).dump) ∧
    (buildDatabaseOperation "create" "user" (Json.obj [("username", Json.str "u")]) "id1"
        (Json.obj [("id", Json.str "7")]) "rq1" 5).get? "conditions" =
      some (Json.str (Json.obj [("id", Json.str "7")]).dump) ∧
    (buildJoinMessage "inner" ["user", "profile"] (Json.obj [("user.id", Json.str "profile.user_id")])
        (Json.obj [("id", Json.str "7")]) "rq1" 5 "rf1").get? "payload" =
      some (Json.str (databasePayload
        (buildJoinOperation "inner" ["user", "profile"]
          (Json.obj [("user.id", Json.str "profile.user_id")])
          (Json.obj [("id", Json.str "7")]) "rq1" 5)).dump) ∧
    (buildJoinOperation "inner" ["user", "profile"]
        (Json.obj [("user.id", Json.str "profile.user_id")])
        (Json.obj [("id", Json.str "7")]) "rq1" 5).get? "on" =
      some (Json.str (Json.obj [("user.id", Json.str "profile.user_id")]).dump) ∧
    (buildJoinOperation "inner" ["user", "profile"]
        (Json.obj [("user.id", Json.str "profile.user_id")])
        (Json.obj [("id", Json.str "7")]) "rq1" 5).get? "conditions" =
      some (Json.str (Json.obj [("id", Json.str "7")]).dump)) :=
  ⟨rfl, rfl,
   c8_double_encoding "create" "user" (Json.obj [("username", Json.str "u")]) "id1"
     (Json.obj [("id", Json.str "7")]) "rq1" 5 "rf1" "inner" ["user", "profile"]
     (Json.obj [("user.id", Json.str "profile.user_id")]) rfl rfl⟩

/-- C9: `disconnect()` on an already-disconnected client is a no-op — it
sends no close frame, changes no state, and completes without error. -/
theorem c9_disconnect_noop (st : ClientState) (h : st.connected = false) :
    disconnectRun st = (st, []) := by
  simp only [disconnectRun, h, Bool.false_eq_true, if_false]

/-- Witness for `c9_disconnect_noop` at a concrete input. -/
theorem c9_disconnect_noop_witness :
    clientStart.connected = false ∧ disconnectRun clientStart = (clientStart, []) :=
  ⟨rfl, c9_disconnect_noop clientStart rfl⟩

/-- C10, counterexample: a payload with a top-level `status` key and an
object-valued `response` sub-object carrying neither marker matches the
claim's disjunctive shape, yet the code drops it: the object-valued
`response` key takes precedence and only the sub-object's markers count. -/
theorem c10_shape_precedence_cex :
    claimedFulfillShape statusAndBareResponse = true ∧
    dispatchReply statusAndBareResponse = none ∧
    onMessage clientReady (some (replyEnvelope "r2" statusAndBareResponse)) =
      (clientReady, []) :=
  ⟨rfl, rfl, rfl⟩

/-- C10, amended: a `phx_reply` envelope with ref ≠ "1" fulfils the
waiter and invokes the message callback iff the payload is an object
and: when it has an object-valued `response` key, that sub-object has
`type == "database_response"` or contains `status` (the sub-object is
delivered); only otherwise does a top-level `status` key fulfil (the
payload itself is delivered).  Everything else is dropped with no state
change and no callback. -/
theorem c10_reply_fulfilment (st : ClientState) (r : String) (p : Json) (h : r ≠ "1") :
    onMessage st (some (replyEnvelope r p)) =
      (if amendedFulfillShape p then fulfillResp st (deliveredReply p) else (st, [])) := by
  rw [onMessage_reply st p r h, dispatchReply_characterization]
  by_cases hs : amendedFulfillShape p <;> simp [hs]

/-- Witness for `c10_reply_fulfilment` at concrete inputs. -/
theorem c10_reply_fulfilment_witness :
    ("r7" : String) ≠ "1" ∧
    onMessage clientReady (some (replyEnvelope "r7" payloadA)) =
      (if amendedFulfillShape payloadA then fulfillResp clientReady (deliveredReply payloadA)
       else (clientReady, [])) :=
  ⟨by decide, c10_reply_fulfilment clientReady "r7" payloadA (by decide)⟩

end DeeperHub
